import Mathlib

/-!
Verification of the quilt-rendering core of the AliceLG Blender add-on
(file lightfield_render.py), as a shallow embedding in Lean 4.

The embedding covers:
* the camera-rig geometry of RenderJob.setup_camera (single-camera and
  multiview code paths), over the real numbers;
* the file-path functions RenderJob.quilt_filepath / RenderJob.view_filepath;
* the quilt assembler RenderJob.assemble_quilt over lists of rational
  pixel values;
* the lockfile serialization of RenderSettings.to_dict / from_dict
  restricted to the RenderJob attribute schema;
* RenderJob.delete_files over an abstract file system;
* the render-job state machine driven by LOOKINGGLASS_OT_render_quilt.modal
  and the renderer lifecycle handlers of RenderJob.

Python floats are modelled by real numbers in the geometry and by rationals
in the data-plumbing parts; Python exceptions (ZeroDivisionError on the
view-cone division, numpy reshape errors, IndexError) are modelled by
Option/Except results.
-/

namespace AliceLG

/- ---------------------------------------------------------------------
   CAMERA-RIG GEOMETRY (RenderJob.setup_camera, lightfield_render.py
   lines 230-385)
   --------------------------------------------------------------------- -/

open Real in
/-- Python math.radians: degrees to radians. -/
noncomputable def radiansFn (deg : ℝ) : ℝ := deg * (π / 180)

/-- The per-view offset angle of RenderJob.setup_camera, line 293:
      offsetAngle = (0.5 - self.view / (self.total_views - 1)) * radians(self.view_cone)
    Python raises ZeroDivisionError when total_views == 1 (the divisor
    total_views - 1 is the integer 0); that failure is modelled by none.
    There is no guard in the source. -/
noncomputable def offsetAngle (view total_views : ℕ) (view_cone : ℝ) : Option ℝ :=
  if total_views = 1 then none
  else some ((0.5 - (view : ℝ) / ((total_views : ℝ) - 1)) * radiansFn view_cone)

/-- Modelled from the spec (section 4.3, step 2): the offset-angle formula
    "(0.5 - view_index/(total_views-1)) * radians(view_cone_degrees)",
    stated as a total function for comparison with the source embedding. -/
noncomputable def offsetAngle_spec (view total_views : ℕ) (view_cone : ℝ) : ℝ :=
  (0.5 - (view : ℝ) / ((total_views : ℝ) - 1)) * radiansFn view_cone

/-- The camera offset of RenderJob.setup_camera, line 296:
      offset = cameraDistance * tan(offsetAngle). -/
noncomputable def cameraOffset (dist : ℝ) (view total_views : ℕ) (view_cone : ℝ) : Option ℝ :=
  (offsetAngle view total_views view_cone).map (fun a => dist * Real.tan a)

/-- The value of the camera offset for total_views ≥ 2 (where the source
    computation does not fail); bridge used to state properties of
    cameraOffset as a real-valued function. -/
noncomputable def offsetVal (dist : ℝ) (view total_views : ℕ) (view_cone : ℝ) : ℝ :=
  dist * Real.tan ((0.5 - (view : ℝ) / ((total_views : ℝ) - 1)) * radiansFn view_cone)

/-- 3-component vectors (mathutils.Vector). -/
abbrev Vec3 := Fin 3 → ℝ

/-- 4x4 matrices (mathutils.Matrix). -/
abbrev Mat4 := Matrix (Fin 4) (Fin 4) ℝ

/-- mathutils Matrix.Scale(factor, 4, axis) for a coordinate axis:
    the identity with the diagonal entry of that axis replaced by factor. -/
noncomputable def matScaleAxis (factor : ℝ) (axis : Fin 3) : Mat4 :=
  Matrix.diagonal (fun i => if i = Fin.castSucc axis then factor else 1)

/-- mathutils Matrix.Translation(t): the identity with last column
    (t 0, t 1, t 2, 1). -/
noncomputable def matTranslation (t : Vec3) : Mat4 :=
  Matrix.of (fun i j =>
    if h : (i : ℕ) < 3 then
      (if j = 3 then t ⟨i, h⟩ else if i = j then 1 else 0)
    else (if i = j then 1 else 0))

/-- mathutils application of a 4x4 matrix to a 3D vector (matrix @ vector):
    the vector is promoted to homogeneous coordinates with w = 1 and the
    first three rows are returned.  All matrices used by setup_camera are
    affine, so no perspective divide occurs. -/
noncomputable def mat4Apply (M : Mat4) (v : Vec3) : Vec3 :=
  fun i => M (Fin.castSucc i) 0 * v 0 + M (Fin.castSucc i) 1 * v 1
    + M (Fin.castSucc i) 2 * v 2 + M (Fin.castSucc i) 3

/-- A Blender camera object as read by setup_camera: its world matrix and
    scale, and its camera-data angle (field of view), horizontal shift and
    location. -/
structure CameraObj where
  matrix_world : Mat4
  scale : Vec3
  angle : ℝ
  shift_x : ℝ
  location : Vec3

/-- The scene state read by setup_camera: the camera chosen in the add-on
    settings (scene.addon_settings.lookingglassCamera), the scene's active
    camera (scene.camera) and the focal-plane distance
    (scene.addon_settings.focalPlane). -/
structure SceneState where
  lookingglassCamera : CameraObj
  scene_camera : CameraObj
  focalPlane : ℝ

/-- Scale-corrected modelview matrix, lines 250-255 / 323-328:
      view_matrix = camera.matrix_world
        @ Scale(1/scale.x, 4, x) @ Scale(1/scale.y, 4, y) @ Scale(1/scale.z, 4, z). -/
noncomputable def corrected_view_matrix (cam : CameraObj) : Mat4 :=
  cam.matrix_world * matScaleAxis (1 / cam.scale 0) 0
    * matScaleAxis (1 / cam.scale 1) 1 * matScaleAxis (1 / cam.scale 2) 2

/-- mathutils Matrix.inverted_safe.  On the invertible matrices arising from
    camera transforms this is the matrix inverse; the claims proved below
    never evaluate it, they only need that both code paths apply the same
    function to the same matrix. -/
noncomputable def inverted_safe (M : Mat4) : Mat4 := M⁻¹

/-- Single-camera branch of RenderJob.setup_camera (lines 234-304),
    restricted to the per-view pose computation: the new camera location
    (line 301) and horizontal shift (line 304) for the given view index.
    The camera used as "original" is the Looking Glass camera selected in
    the add-on settings (lines 241-244); the temporary render camera uses a
    copy of its camera data, so fov (line 286) is its data angle. -/
noncomputable def setup_camera_single (s : SceneState) (view total_views : ℕ)
    (view_cone : ℝ) : Option (Vec3 × ℝ) :=
  let camera_original := s.lookingglassCamera
  let view_matrix := corrected_view_matrix s.lookingglassCamera
  let view_matrix_inv := inverted_safe view_matrix
  let fov := s.lookingglassCamera.angle
  let cameraDistance := s.focalPlane
  let cameraSize := cameraDistance * Real.tan (fov / 2)
  (offsetAngle view total_views view_cone).map (fun a =>
    let offset := cameraDistance * Real.tan a
    (mat4Apply view_matrix
       (mat4Apply (matTranslation ![-offset, 0, 0])
         (mat4Apply view_matrix_inv camera_original.location)),
     camera_original.shift_x + 0.5 * offset / cameraSize))

/-- Multiview branch of RenderJob.setup_camera (lines 311-385), restricted
    to the per-view pose computation for one view of the loop (lines
    334-382).  The "original" camera here is the scene's active camera
    (line 317), while the view matrix and the camera-data angle still come
    from the Looking Glass camera (lines 314, 323, 340/364: every temporary
    camera's data is a copy of the Looking Glass camera's data, and its
    angle is never modified in the loop). -/
noncomputable def setup_camera_multiview (s : SceneState) (view total_views : ℕ)
    (view_cone : ℝ) : Option (Vec3 × ℝ) :=
  let camera_original := s.scene_camera
  let view_matrix := corrected_view_matrix s.lookingglassCamera
  let view_matrix_inv := inverted_safe view_matrix
  let fov := s.lookingglassCamera.angle
  let cameraDistance := s.focalPlane
  let cameraSize := cameraDistance * Real.tan (fov / 2)
  (offsetAngle view total_views view_cone).map (fun a =>
    let offset := cameraDistance * Real.tan a
    (mat4Apply view_matrix
       (mat4Apply (matTranslation ![-offset, 0, 0])
         (mat4Apply view_matrix_inv camera_original.location)),
     camera_original.shift_x + 0.5 * offset / cameraSize))

/- ---------------------------------------------------------------------
   RENDER-JOB DATA MODEL AND FILE-PATH HANDLING
   (class RenderJob, lightfield_render.py lines 53-185)
   --------------------------------------------------------------------- -/

/-- Render-job states (the _state attribute, line 70). -/
inductive JState where
  | INVOKE_RENDER
  | INIT_RENDER
  | PRE_RENDER
  | POST_RENDER
  | COMPLETE_RENDER
  | CANCEL_RENDER
  | IDLE
deriving DecidableEq, Repr

/-- The fields of a bpy.types.Scene that the render job reads: its name (the
    key under which bpy.data.scenes stores it) and its frame range. -/
structure SceneData where
  name : String
  frame_start : ℤ
  frame_end : ℤ
  frame_current : ℤ
deriving DecidableEq, Repr

/-- The attributes of a RenderJob instance (lines 55-140), with the Blender
    handles that carry no job state (temporary cameras, image data blocks,
    view matrices) omitted.  Attribute names follow the source; names with a
    leading underscore are the attributes the lockfile never stores (note on
    line 59).  Python floats are modelled by rationals here, pixel buffers
    by lists of rationals.  cancel_sign / cancel_message are created
    dynamically on the job by init_render (lines 609-610); they are Option
    fields, none meaning the attribute was never created. -/
structure RenderJob where
  init : Bool
  add_suffix : Bool
  scene : SceneData
  animation : Bool
  use_multiview : Bool
  frame : ℤ
  subframe : ℚ
  view : ℤ
  seed : Option ℤ
  view_width : ℤ
  view_height : ℤ
  rows : ℤ
  columns : ℤ
  total_views : ℤ
  quilt_aspect : ℚ
  view_cone : ℚ
  lockfile_path : String
  outputpath : String
  file_use_temp : Bool
  file_temp_name : String
  file_dirname : String
  file_basename : String
  file_extension : String
  file_quilt_suffix : Option String
  file_force_keep : Bool
  cancel_sign : Option String
  cancel_message : Option String
  _use_lockfile : Bool
  _state : JState
  _view_images_pixels : List (List ℚ)
deriving DecidableEq

/-- Python str.zfill for the digit strings produced by str on nonnegative
    integers: pad with leading zeros to the requested width. -/
def zfill (s : String) (width : ℕ) : String :=
  String.mk (List.replicate (width - s.length) '0') ++ s

/-- The directory part contributed by posix os.path.join(dir, name) for a
    relative name: empty for an empty dir, else dir with exactly one
    trailing separator. -/
def dirSep (dir : String) : String :=
  if dir = "" then "" else if dir.data.getLast? = some '/' then dir else dir ++ "/"

/-- posix os.path.join(dir, name) for a name without a leading separator
    (the names joined by the path functions are file basenames). -/
def pathJoin (dir name : String) : String := dirSep dir ++ name

/-- RenderJob.get_quilt_suffix (lines 146-153).  Numeric formatting is
    Lean's toString; the path claims depend only on the structure of the
    resulting strings, not on the digits. -/
def RenderJob.get_quilt_suffix (j : RenderJob) : String :=
  if j.add_suffix then
    "_qs" ++ toString j.columns ++ "x" ++ toString j.rows ++ "a" ++ toString j.quilt_aspect
  else ""

/-- RenderJob.quilt_filepath (lines 156-169).  The frame argument defaults
    to the job's current frame (modelled by Option). -/
def RenderJob.quilt_filepath (j : RenderJob) (frame : Option ℤ) : String :=
  let frame := frame.getD j.frame
  if j.animation then
    pathJoin j.file_dirname
      (j.file_basename ++ "_f" ++ zfill (toString frame) (toString j.scene.frame_end).length
        ++ j.get_quilt_suffix ++ j.file_extension)
  else
    pathJoin j.file_dirname (j.file_basename ++ j.get_quilt_suffix ++ j.file_extension)

/-- RenderJob.view_filepath (lines 172-185).  The view and frame arguments
    default to the job's current view and frame. -/
def RenderJob.view_filepath (j : RenderJob) (view : Option ℤ)
    (frame : Option ℤ) : String :=
  let view := view.getD j.view
  let frame := frame.getD j.frame
  if j.animation then
    pathJoin j.file_dirname
      (j.file_basename ++ "_f" ++ zfill (toString frame) (toString j.scene.frame_end).length
        ++ j.get_quilt_suffix
        ++ "_v" ++ zfill (toString view) (toString (j.total_views - 1)).length
        ++ j.file_extension)
  else
    pathJoin j.file_dirname
      (j.file_basename ++ j.get_quilt_suffix
        ++ "_v" ++ zfill (toString view) (toString (j.total_views - 1)).length
        ++ j.file_extension)

/-- The part shared by a view path and the quilt path for the same frame:
    everything before the "_v" view segment and the extension. -/
def RenderJob.pathStem (j : RenderJob) (frame : ℤ) : String :=
  if j.animation then
    dirSep j.file_dirname
      ++ (j.file_basename ++ "_f" ++ zfill (toString frame) (toString j.scene.frame_end).length
          ++ j.get_quilt_suffix)
  else
    dirSep j.file_dirname ++ (j.file_basename ++ j.get_quilt_suffix)

/-- The zero-padded view segment of a view file path. -/
def RenderJob.viewSegment (j : RenderJob) (view : ℤ) : String :=
  "_v" ++ zfill (toString view) (toString (j.total_views - 1)).length

/- ---------------------------------------------------------------------
   LOCKFILE SERIALIZATION
   (RenderSettings.to_dict / from_dict / write_to_lockfile /
   read_from_lockfile, lightfield_render.py lines 858-1017)
   --------------------------------------------------------------------- -/

/-- JSON-equivalent values as produced by RenderSettings.to_dict and
    consumed by from_dict after json round-tripping (json.dumps / json.load
    preserve these values exactly). -/
inductive JValue where
  | null
  | jbool : Bool → JValue
  | jint : ℤ → JValue
  | jnum : ℚ → JValue
  | jstr : String → JValue
  | jarr : List JValue → JValue
  | jobj : List (String × JValue) → JValue

/-- to_dict applied to an optional integer attribute: Python None falls
    through every branch of to_dict and serializes as null. -/
def jOptInt : Option ℤ → JValue
  | none => JValue.null
  | some n => JValue.jint n

/-- to_dict applied to an optional string attribute. -/
def jOptStr : Option String → JValue
  | none => JValue.null
  | some s => JValue.jstr s

/-- RenderSettings.to_dict (lines 861-904) applied to the RenderJob object:
    the hasattr(obj, "__dict__") branch serializes every attribute of
    __init__ whose name has no leading underscore, in insertion order.  The
    scene attribute has no __dict__ but a name, so it serializes to its
    name (lines 899-900); bool/int/float/str attributes serialize to
    themselves (lines 901-902); None serializes to null (line 904).
    cancel_sign / cancel_message are runtime-created attributes that exist
    only on the resume-failure path, after which no lockfile is written, so
    they do not appear in the record. -/
def jobToDict (j : RenderJob) : List (String × JValue) :=
  [("init", JValue.jbool j.init),
   ("add_suffix", JValue.jbool j.add_suffix),
   ("scene", JValue.jstr j.scene.name),
   ("animation", JValue.jbool j.animation),
   ("use_multiview", JValue.jbool j.use_multiview),
   ("frame", JValue.jint j.frame),
   ("subframe", JValue.jnum j.subframe),
   ("view", JValue.jint j.view),
   ("seed", jOptInt j.seed),
   ("view_width", JValue.jint j.view_width),
   ("view_height", JValue.jint j.view_height),
   ("rows", JValue.jint j.rows),
   ("columns", JValue.jint j.columns),
   ("total_views", JValue.jint j.total_views),
   ("quilt_aspect", JValue.jnum j.quilt_aspect),
   ("view_cone", JValue.jnum j.view_cone),
   ("lockfile_path", JValue.jstr j.lockfile_path),
   ("outputpath", JValue.jstr j.outputpath),
   ("file_use_temp", JValue.jbool j.file_use_temp),
   ("file_temp_name", JValue.jstr j.file_temp_name),
   ("file_dirname", JValue.jstr j.file_dirname),
   ("file_basename", JValue.jstr j.file_basename),
   ("file_extension", JValue.jstr j.file_extension),
   ("file_quilt_suffix", jOptStr j.file_quilt_suffix),
   ("file_force_keep", JValue.jbool j.file_force_keep)]

/-- One iteration of RenderSettings.from_dict (lines 907-946) on the
    RenderJob object: the "scene" key is looked up in bpy.data.scenes
    (the scenes registry, line 916); a null value matches no isinstance
    branch and is skipped; a bool/int/float/str value is assigned to the
    attribute.  Python setattr is untyped; records produced by to_dict
    always carry the declared type of each attribute, and a pair whose
    value does not fit its attribute leaves the object unchanged here. -/
def jobSetKey (scenes : String → SceneData) (j : RenderJob) : String × JValue → RenderJob
  | ("scene", JValue.jstr s) => { j with scene := scenes s }
  | ("init", JValue.jbool b) => { j with init := b }
  | ("add_suffix", JValue.jbool b) => { j with add_suffix := b }
  | ("animation", JValue.jbool b) => { j with animation := b }
  | ("use_multiview", JValue.jbool b) => { j with use_multiview := b }
  | ("frame", JValue.jint n) => { j with frame := n }
  | ("subframe", JValue.jnum q) => { j with subframe := q }
  | ("view", JValue.jint n) => { j with view := n }
  | ("seed", JValue.jint n) => { j with seed := some n }
  | ("view_width", JValue.jint n) => { j with view_width := n }
  | ("view_height", JValue.jint n) => { j with view_height := n }
  | ("rows", JValue.jint n) => { j with rows := n }
  | ("columns", JValue.jint n) => { j with columns := n }
  | ("total_views", JValue.jint n) => { j with total_views := n }
  | ("quilt_aspect", JValue.jnum q) => { j with quilt_aspect := q }
  | ("view_cone", JValue.jnum q) => { j with view_cone := q }
  | ("lockfile_path", JValue.jstr s) => { j with lockfile_path := s }
  | ("outputpath", JValue.jstr s) => { j with outputpath := s }
  | ("file_use_temp", JValue.jbool b) => { j with file_use_temp := b }
  | ("file_temp_name", JValue.jstr s) => { j with file_temp_name := s }
  | ("file_dirname", JValue.jstr s) => { j with file_dirname := s }
  | ("file_basename", JValue.jstr s) => { j with file_basename := s }
  | ("file_extension", JValue.jstr s) => { j with file_extension := s }
  | ("file_quilt_suffix", JValue.jstr s) => { j with file_quilt_suffix := some s }
  | ("file_force_keep", JValue.jbool b) => { j with file_force_keep := b }
  | _ => j

/-- RenderSettings.from_dict iterating over the pairs of a job record. -/
def jobFromDict (scenes : String → SceneData) (j : RenderJob)
    (pairs : List (String × JValue)) : RenderJob :=
  pairs.foldl (jobSetKey scenes) j

/-- RenderSettings.write_to_lockfile restricted to the job part of the
    record: the serializable snapshot of the RenderJob written to the
    recovery file (the textual json encoding is not modelled; json.dumps
    followed by json.load is the identity on these values). -/
def checkpoint (j : RenderJob) : JValue := JValue.jobj (jobToDict j)

/-- RenderSettings.read_from_lockfile restricted to the job part of the
    record: from_dict recurses into the "job" sub-dictionary and applies it
    to the RenderJob object t freshly created by RenderJob.__init__
    (lines 739, 931-934). -/
def resume (scenes : String → SceneData) (t : RenderJob) : JValue → RenderJob
  | JValue.jobj pairs => jobFromDict scenes t pairs
  | _ => t

/-- The tuple of all persistent RenderJob fields: every attribute declared
    by __init__ whose name has no leading underscore (the attributes the
    lockfile stores, note on line 59). -/
def persistentFields (j : RenderJob) :=
  (j.init, j.add_suffix, j.scene, j.animation, j.use_multiview,
   j.frame, j.subframe, j.view, j.seed,
   j.view_width, j.view_height, j.rows, j.columns, j.total_views,
   j.quilt_aspect, j.view_cone,
   j.lockfile_path, j.outputpath, j.file_use_temp, j.file_temp_name,
   j.file_dirname, j.file_basename, j.file_extension, j.file_quilt_suffix,
   j.file_force_keep)

/- ---------------------------------------------------------------------
   QUILT ASSEMBLY (RenderJob.assemble_quilt, lightfield_render.py
   lines 388-418)
   --------------------------------------------------------------------- -/

/-- numpy reshape of a flat view buffer to (res_y, res_x, 4), flattened to
    its list of res_y pixel rows of res_x * 4 channel values each (the
    memory layout is unchanged by reshape; the x and channel axes stay
    contiguous within a row). -/
def reshapeRows (res_x res_y : ℕ) (buf : List ℚ) : List (List ℚ) :=
  (List.range res_y).map (fun y => (buf.drop (y * (res_x * 4))).take (res_x * 4))

/-- numpy hstack of a row of view tiles, each given as res_y rows:
    row y of the result is the concatenation of the tiles' rows y. -/
def hstackRows (res_y : ℕ) (tiles : List (List (List ℚ))) : List (List ℚ) :=
  (List.range res_y).map (fun y => (tiles.map (fun t => t.getD y [])).flatten)

/-- RenderJob.assemble_quilt (lines 388-418), restricted to the pixel
    computation: for each row, reshape the buffers at positions
    row * columns + column to (res_y, res_x, 4) and hstack them; vstack the
    rows; flatten to columns * rows * (res_x * res_y * 4) values.  The
    Python loop raises at the first list index beyond the buffer list
    (IndexError) or at the first buffer whose length is not
    res_y * res_x * 4 (numpy reshape ValueError); success is therefore
    equivalent to the guard below, and failure is modelled by none. -/
def assemble_quilt (rows columns res_x res_y : ℕ) (bufs : List (List ℚ)) :
    Option (List ℚ) :=
  if rows * columns ≤ bufs.length
      ∧ ∀ r < rows, ∀ c < columns, (bufs.getD (r * columns + c) []).length = res_y * (res_x * 4)
  then
    some (((List.range rows).map (fun r =>
      hstackRows res_y ((List.range columns).map (fun c =>
        reshapeRows res_x res_y (bufs.getD (r * columns + c) []))))).flatten.flatten)
  else none

/- ---------------------------------------------------------------------
   FILE SYSTEM AND FILE DELETION (RenderJob.delete_files, lines 463-484)
   --------------------------------------------------------------------- -/

/-- The file system as the render job sees it: which paths hold a file, and
    the pixel data a view file loads to. -/
structure FileSys where
  has : String → Bool
  dat : String → List ℚ

/-- os.remove of one path (guarded by os.path.isfile in the source; the
    net effect is the same whether or not the file exists). -/
def fsRemoveFile (fs : FileSys) (p : String) : FileSys :=
  { fs with has := fun q => if q = p then false else fs.has q }

/-- Writing a file (bpy save_render / image save). -/
def fsWriteFile (fs : FileSys) (p : String) (pix : List ℚ) : FileSys :=
  { has := fun q => if q = p then true else fs.has q,
    dat := fun q => if q = p then pix else fs.dat q }

/-- The basename component of posix os.path.split: everything after the
    last separator.  delete_files only tests whether this is empty. -/
def pySplitBasename (s : String) : String :=
  String.mk ((s.data.reverse.takeWhile (fun c => c ≠ '/')).reverse)

/-- RenderJob.delete_files (lines 463-484): removes every view file of the
    given frame; re-splits self.outputpath and, if the user gave an empty
    basename and this is not an animation, also removes the quilt file;
    finally clears the in-memory pixel list. -/
def RenderJob.delete_files (fs : FileSys) (j : RenderJob) (frame : Option ℤ) :
    FileSys × RenderJob :=
  let fs1 := ((List.range j.total_views.toNat).map
      (fun (v : ℕ) => j.view_filepath (some (v : ℤ)) frame)).foldl fsRemoveFile fs
  let fs2 := if pySplitBasename j.outputpath = "" ∧ j.animation = false then
      fsRemoveFile fs1 (j.quilt_filepath frame)
    else fs1
  (fs2, { j with _view_images_pixels := [] })

/- ---------------------------------------------------------------------
   RENDER-JOB STATE MACHINE
   (RenderJob handler callbacks, lines 544-689, and
   LOOKINGGLASS_OT_render_quilt.cancel / modal, lines 1101-1642)
   --------------------------------------------------------------------- -/

/-- Python range(a, b) over integers. -/
def intRange (a b : ℤ) : List ℤ :=
  (List.range (b - a).toNat).map (fun i => a + (i : ℤ))

/-- The operator-level state: the job, the add-on settings the state
    machine reads and writes (render_cancel, render_output), the operator's
    invocation arguments and its own cancel_sign / cancel_message class
    attributes (lines 1072-1085), the frame step copied into RenderSettings,
    and the render resolution (set to the job's view size before the modal
    loop starts, lines 1338-1339). -/
structure OpState where
  job : RenderJob
  render_cancel : Bool
  render_output : String
  frame_step : ℤ
  resolution_x : ℕ
  resolution_y : ℕ
  op_animation : Bool
  discard_lockfile : Bool
  cancel_sign : String
  cancel_message : String

/-- The view-file reload loop of RenderJob.init_render (lines 565-612): for
    each view below the job's view counter, a present file is loaded and
    its pixels appended; the first missing file cancels the job, forces
    file keeping, records the resume error on the job (lines 603-610) and
    returns, loading no further views.  When every file is present the
    lockfile flag is reset (line 615). -/
def load_views_loop (fs : FileSys) (j : RenderJob) : List ℕ → RenderJob
  | [] => { j with _use_lockfile := false }
  | v :: rest =>
    if fs.has (j.view_filepath (some (v : ℤ)) none) then
      load_views_loop fs
        { j with _view_images_pixels :=
            j._view_images_pixels ++ [fs.dat (j.view_filepath (some (v : ℤ)) none)] }
        rest
    else
      { j with _state := JState.CANCEL_RENDER,
               file_force_keep := true,
               cancel_sign := some ("ERROR"),
               cancel_message :=
                 some ("Render job can not be continued. Missing view file(s) of the previously failed render job.") }

/-- RenderJob.init_render (lines 544-615): unless cancelled, enter
    INIT_RENDER; on the first render of a lockfile-continued job, reload
    the previously captured views from disk. -/
def opInitRender (fs : FileSys) (op : OpState) : OpState :=
  if op.job._state ≠ JState.CANCEL_RENDER ∧ op.render_cancel = false then
    let j := { op.job with _state := JState.INIT_RENDER }
    if j._use_lockfile ∧ j.init then
      { op with job := load_views_loop fs j (List.range j.view.toNat) }
    else { op with job := j }
  else op

/-- RenderJob.pre_render (lines 619-635): unless cancelled, enter
    PRE_RENDER (the body only logs). -/
def opPreRender (op : OpState) : OpState :=
  if op.job._state ≠ JState.CANCEL_RENDER ∧ op.render_cancel = false then
    { op with job := { op.job with _state := JState.PRE_RENDER } }
  else op

/-- RenderJob.post_render (lines 639-668): unless cancelled, enter
    POST_RENDER, save the rendered view to its view file and append its
    pixels to the job's pixel list.  The pixels delivered by the renderer
    are the event payload; saving and reloading the file is value-preserving
    here. -/
def opPostRender (pixels : List ℚ) (fs : FileSys) (op : OpState) : FileSys × OpState :=
  if op.job._state ≠ JState.CANCEL_RENDER ∧ op.render_cancel = false then
    let path := op.job.view_filepath none none
    (fsWriteFile fs path pixels,
     { op with job := { op.job with
         _state := JState.POST_RENDER,
         _view_images_pixels := op.job._view_images_pixels ++ [pixels] } })
  else (fs, op)

/-- RenderJob.completed_render (lines 671-680): unless cancelled, enter
    COMPLETE_RENDER and clear the initialization flag. -/
def opCompletedRender (op : OpState) : OpState :=
  if op.job._state ≠ JState.CANCEL_RENDER ∧ op.render_cancel = false then
    { op with job := { op.job with _state := JState.COMPLETE_RENDER, init := false } }
  else op

/-- RenderJob.cancel_render (lines 683-689). -/
def opCancelRender (op : OpState) : OpState :=
  { op with job := { op.job with _state := JState.CANCEL_RENDER }, render_cancel := true }

/-- LOOKINGGLASS_OT_render_quilt.cancel (lines 1101-1187) restricted to the
    modelled state: clear the pixel list; delete the on-disk view files per
    the retention condition of line 1133 (for an animation, over every
    frame of range(frame_start, frame_end + frame_step)); delete the
    lockfile; reset the cancel flag.  Camera clean-up and the restoration
    of the original render settings have no modelled effect. -/
def opUnwind (fs : FileSys) (op : OpState) : FileSys × OpState :=
  let j := { op.job with _view_images_pixels := [] }
  let cond := ((op.render_output = "1"
      ∨ ¬((j.animation = false ∧ j.file_use_temp = false) ∨ op.op_animation = true))
      ∧ j.file_force_keep = false) ∨ op.discard_lockfile = true
  let fsj :=
    if cond then
      if j.animation then
        (intRange j.scene.frame_start (j.scene.frame_end + op.frame_step)).foldl
          (fun acc f => RenderJob.delete_files acc.1 acc.2 (some f)) (fs, j)
      else RenderJob.delete_files fs j none
    else (fs, j)
  (fsRemoveFile fsj.1 j.lockfile_path,
   { op with job := fsj.2, render_cancel := false })

/-- The outcome of one call of the modal operator. -/
inductive ModalResult where
  | pass_through
  | cancelled (sign msg : String)
deriving DecidableEq, Repr

/-- One TIMER tick of LOOKINGGLASS_OT_render_quilt.modal (lines 1421-1642).
    * INVOKE_RENDER (lines 1440-1477): invoke the render job and start the
      external render; the state becomes IDLE.  RenderJob.invoke only sets
      the scene frame and the Cycles seed, neither of which is modelled;
      setup_camera's pose computation is modelled separately.
    * COMPLETE_RENDER (lines 1481-1622): on the last view, assemble the
      quilt and write the quilt file; an assembly failure raises out of
      modal (Except.error; no job field was mutated before the raise).
      Then advance view / frame exactly as lines 1539-1616.
    * otherwise (lines 1624-1639): when cancelled, unwind and report the
      operator's cancel_sign / cancel_message. -/
def opTimer (fs : FileSys) (op : OpState) : Except String (FileSys × OpState × ModalResult) :=
  if op.render_cancel = false ∧ op.job._state = JState.INVOKE_RENDER then
    let j := op.job
    let j := if j._state ≠ JState.CANCEL_RENDER then { j with _state := JState.IDLE } else j
    Except.ok (fs, { op with job := j }, ModalResult.pass_through)
  else if op.render_cancel = false ∧ op.job._state = JState.COMPLETE_RENDER then
    match (if op.job.view = op.job.total_views - 1 then
        assemble_quilt op.job.rows.toNat op.job.columns.toNat
          op.resolution_x op.resolution_y op.job._view_images_pixels
      else some []) with
    | none => Except.error ("AssemblyError: cannot reshape view buffer")
    | some q =>
      let fs := if op.job.view = op.job.total_views - 1 then
          fsWriteFile fs (op.job.quilt_filepath none) q
        else fs
      if op.job.animation = false then
        if op.job.view < op.job.total_views - 1 then
          Except.ok (fs, { op with job := { op.job with
            view := op.job.view + 1,
            _state := JState.INVOKE_RENDER } }, ModalResult.pass_through)
        else
          Except.ok (fs, { op with
            job := { op.job with _state := JState.CANCEL_RENDER },
            cancel_sign := "INFO",
            cancel_message := "Complete quilt rendered." },
            ModalResult.pass_through)
      else
        if op.job.view < op.job.total_views - 1 then
          Except.ok (fs, { op with job := { op.job with
            view := op.job.view + 1,
            _state := JState.INVOKE_RENDER } }, ModalResult.pass_through)
        else
          if op.job.frame < op.job.scene.frame_end then
            let fsj := if op.render_output = "1" ∧ op.job.file_force_keep = false then
                RenderJob.delete_files fs op.job (some op.job.frame)
              else (fs, op.job)
            Except.ok (fsj.1, { op with job := { fsj.2 with
              init := true,
              view := 0,
              frame := op.job.frame + op.frame_step,
              _state := JState.INVOKE_RENDER } }, ModalResult.pass_through)
          else
            Except.ok (fs, { op with
              job := { op.job with _state := JState.CANCEL_RENDER },
              cancel_sign := "INFO",
              cancel_message := "Complete animation quilt rendered." },
              ModalResult.pass_through)
  else if op.job._state = JState.CANCEL_RENDER ∨ op.render_cancel = true then
    let fsop := opUnwind fs op
    Except.ok (fsop.1, fsop.2, ModalResult.cancelled fsop.2.cancel_sign fsop.2.cancel_message)
  else
    Except.ok (fs, op, ModalResult.pass_through)

/-- Events driving the state machine: the modal TIMER tick and ESC key, and
    the renderer lifecycle callbacks. -/
inductive REvent where
  | timer
  | esc
  | rinit
  | rpre
  | rpost (pixels : List ℚ)
  | rcomplete
  | rcancel

/-- Dispatch of one event.  The ESC branch of modal (lines 1426-1433) sets
    the cancel state and passes the event through; handler callbacks run
    outside modal. -/
def opEvent (fs : FileSys) (op : OpState) : REvent → Except String (FileSys × OpState × ModalResult)
  | REvent.timer => opTimer fs op
  | REvent.esc =>
    Except.ok (fs, { op with
      job := { op.job with _state := JState.CANCEL_RENDER },
      render_cancel := true }, ModalResult.pass_through)
  | REvent.rinit => Except.ok (fs, opInitRender fs op, ModalResult.pass_through)
  | REvent.rpre => Except.ok (fs, opPreRender op, ModalResult.pass_through)
  | REvent.rpost pixels =>
    let fsop := opPostRender pixels fs op
    Except.ok (fsop.1, fsop.2, ModalResult.pass_through)
  | REvent.rcomplete => Except.ok (fs, opCompletedRender op, ModalResult.pass_through)
  | REvent.rcancel => Except.ok (fs, opCancelRender op, ModalResult.pass_through)

/-- Run a sequence of events, keeping the last modal outcome. -/
def runTrace (fs : FileSys) (op : OpState) (res : ModalResult) :
    List REvent → Except String (FileSys × OpState × ModalResult)
  | [] => Except.ok (fs, op, res)
  | e :: rest =>
    match opEvent fs op e with
    | Except.error m => Except.error m
    | Except.ok (fs2, op2, r2) => runTrace fs2 op2 r2 rest

/- ---------------------------------------------------------------------
   CONCRETE INSTANCES (used to exhibit the proved properties on concrete
   inputs and to evaluate the state machine on concrete traces)
   --------------------------------------------------------------------- -/

/-- A concrete still-image render job: a 1x2 quilt of 1x1 views rendered to
    /tmp/render/out.png. -/
def baseJob : RenderJob :=
  { init := true,
    add_suffix := false,
    scene := { name := "Scene", frame_start := 1, frame_end := 2, frame_current := 1 },
    animation := false,
    use_multiview := false,
    frame := 1,
    subframe := 0,
    view := 0,
    seed := none,
    view_width := 1,
    view_height := 1,
    rows := 1,
    columns := 2,
    total_views := 2,
    quilt_aspect := 1,
    view_cone := 40,
    lockfile_path := "/tmp/alice/test.blend.lock",
    outputpath := "/tmp/render/out.png",
    file_use_temp := false,
    file_temp_name := "Quilt Render Result",
    file_dirname := "/tmp/render",
    file_basename := "out",
    file_extension := ".png",
    file_quilt_suffix := none,
    file_force_keep := false,
    cancel_sign := none,
    cancel_message := none,
    _use_lockfile := false,
    _state := JState.INVOKE_RENDER,
    _view_images_pixels := [] }

/-- An empty file system. -/
def emptyFS : FileSys := { has := fun _ => false, dat := fun _ => [] }

/-- A file system on which every path holds an (empty) file. -/
def fullFS : FileSys := { has := fun _ => true, dat := fun _ => [] }

/-- A concrete camera at the world origin with identity transform. -/
noncomputable def camW : CameraObj :=
  { matrix_world := 1, scale := ![1, 1, 1], angle := 1, shift_x := 0, location := ![0, 0, 0] }

/-- A concrete scene whose active camera is the Looking Glass camera. -/
noncomputable def sceneW : SceneState :=
  { lookingglassCamera := camW, scene_camera := camW, focalPlane := 5 }

/-- Operator state for a two-frame animation job that keeps its view files
    (render_output is not the delete-views setting "1"). -/
def c8Op : OpState :=
  { job := { baseJob with animation := true },
    render_cancel := false,
    render_output := "0",
    frame_step := 1,
    resolution_x := 1,
    resolution_y := 1,
    op_animation := true,
    discard_lockfile := false,
    cancel_sign := "INFO",
    cancel_message := "Quilt rendering was cancelled." }

/-- The event trace of the first frame of the c8Op job: both views are
    rendered and captured, the frame completes and the job advances to
    frame 2. -/
def c8Trace : List REvent :=
  [REvent.timer, REvent.rinit, REvent.rpre, REvent.rpost [0, 0, 0, 1], REvent.rcomplete,
   REvent.timer,
   REvent.timer, REvent.rinit, REvent.rpre, REvent.rpost [0, 0, 1, 1], REvent.rcomplete,
   REvent.timer]

/-- A job resumed from a lockfile: the job had completed views 0 and 1
    (view counter 2 of 3). -/
def c7Job : RenderJob :=
  { baseJob with columns := 3, total_views := 3, view := 2, _use_lockfile := true }

/-- Operator state for the resumed c7Job. -/
def c7Op : OpState :=
  { job := c7Job,
    render_cancel := false,
    render_output := "0",
    frame_step := 1,
    resolution_x := 1,
    resolution_y := 1,
    op_animation := false,
    discard_lockfile := false,
    cancel_sign := "INFO",
    cancel_message := "Quilt rendering was cancelled." }

/-- A file system holding only the view file of view 0 of c7Job: the view
    file of view 1 is missing. -/
def c7FS : FileSys :=
  { has := fun p => p == c7Job.view_filepath (some 0) none,
    dat := fun _ => [1, 2, 3, 4] }

/-- Operator state sitting at the completion of the last view of a
    still-image job whose second captured buffer has the wrong size
    (2 values instead of 1 * 1 * 4). -/
def c6Op : OpState :=
  { job := { baseJob with
      view := 1,
      _state := JState.COMPLETE_RENDER,
      _view_images_pixels := [[1, 2, 3, 4], [1, 2]] },
    render_cancel := false,
    render_output := "0",
    frame_step := 1,
    resolution_x := 1,
    resolution_y := 1,
    op_animation := false,
    discard_lockfile := false,
    cancel_sign := "INFO",
    cancel_message := "Quilt rendering was cancelled." }

/- ---------------------------------------------------------------------
   THEOREMS
   --------------------------------------------------------------------- -/

/-- Claim C1, counterexample.  The claim states that for total_views == 1
    the offset-angle computation is guarded so that the offset angle is
    exactly 0.  In the source (line 293) there is no guard: the division
    view / (total_views - 1) divides by zero and the computation fails
    (produces no value), so the offset angle is not 0. -/
theorem offsetAngle_one_view_counterexample :
    offsetAngle 0 1 40 = none ∧ offsetAngle 0 1 40 ≠ some 0 := by
  refine ⟨by simp [offsetAngle], by simp [offsetAngle]⟩

/-- Claim C1, amended.  For every view pose computation with
    total_views ≠ 1, the per-view offset angle equals
    (0.5 - view_index/(total_views-1)) * radians(view_cone_degrees); in the
    degenerate case total_views == 1 the computation is not guarded: the
    division by zero aborts it (no offset angle is produced) instead of
    yielding 0. -/
theorem offsetAngle_eq_spec_formula (view total_views : ℕ) (view_cone : ℝ) :
    (total_views ≠ 1 →
      offsetAngle view total_views view_cone
        = some (offsetAngle_spec view total_views view_cone))
    ∧ (total_views = 1 → offsetAngle view total_views view_cone = none) := by
  constructor
  · intro h
    simp [offsetAngle, offsetAngle_spec, h]
  · intro h
    simp [offsetAngle, h]

/-- Witness for offsetAngle_eq_spec_formula at total_views = 5 and
    total_views = 1. -/
theorem offsetAngle_eq_spec_formula_witness :
    offsetAngle 0 5 40 = some (offsetAngle_spec 0 5 40) ∧ offsetAngle 0 1 40 = none :=
  ⟨(offsetAngle_eq_spec_formula 0 5 40).1 (by decide),
   (offsetAngle_eq_spec_formula 0 1 40).2 rfl⟩

/-- Claim C2.  For every view index, view cone and total_views, when both
    code paths see the same base camera — the scene's active camera used as
    "original" by the multiview branch agrees (in location and horizontal
    shift, in particular when it is the same camera object) with the
    Looking Glass camera used by the single-camera branch — the
    single-camera and the multiview branches of setup_camera compute
    identical camera locations and horizontal shifts. -/
theorem setup_camera_modes_agree (s : SceneState) (view total_views : ℕ) (view_cone : ℝ)
    (hloc : s.scene_camera.location = s.lookingglassCamera.location)
    (hshift : s.scene_camera.shift_x = s.lookingglassCamera.shift_x) :
    setup_camera_single s view total_views view_cone
      = setup_camera_multiview s view total_views view_cone := by
  simp [setup_camera_single, setup_camera_multiview, hloc, hshift]

/-- Witness for setup_camera_modes_agree on a concrete scene whose active
    camera is the Looking Glass camera. -/
theorem setup_camera_modes_agree_witness :
    setup_camera_single sceneW 0 5 40 = setup_camera_multiview sceneW 0 5 40 :=
  setup_camera_modes_agree sceneW 0 5 40 rfl rfl

/-- Basic facts about radiansFn under the device-parameter bounds
    0 < cone < 180: the view-cone angle in radians is positive and its half
    is below π/2. -/
theorem radiansFn_bounds (cone : ℝ) (hcone : 0 < cone) (hcone2 : cone < 180) :
    0 < radiansFn cone ∧ radiansFn cone / 2 < Real.pi / 2 := by
  unfold radiansFn
  constructor
  · have : 0 < Real.pi / 180 := by positivity
    exact mul_pos hcone this
  · have hpi : 0 < Real.pi / 180 := by positivity
    have h1 : cone * (Real.pi / 180) < 180 * (Real.pi / 180) :=
      mul_lt_mul_of_pos_right hcone2 hpi
    have h2 : (180 : ℝ) * (Real.pi / 180) = Real.pi := by ring
    linarith

/-- The offset angle of a view in range lies in [-rc/2, rc/2] where rc is
    the view cone in radians, and is strictly decreasing in the view index. -/
theorem offsetAngleVal_bounds (cone : ℝ) (tv : ℕ) (htv : 2 ≤ tv)
    (hcone : 0 < cone) (hcone2 : cone < 180) {v : ℕ} (hv : v ≤ tv - 1) :
    -(Real.pi / 2) < (0.5 - (v : ℝ) / ((tv : ℝ) - 1)) * radiansFn cone
    ∧ (0.5 - (v : ℝ) / ((tv : ℝ) - 1)) * radiansFn cone < Real.pi / 2 := by
  obtain ⟨hrc, hrc2⟩ := radiansFn_bounds cone hcone hcone2
  have htv' : (2 : ℝ) ≤ (tv : ℝ) := by exact_mod_cast htv
  have hn : (0 : ℝ) < (tv : ℝ) - 1 := by linarith
  have hv' : (v : ℝ) ≤ (tv : ℝ) - 1 := by
    have : (v : ℝ) ≤ ((tv - 1 : ℕ) : ℝ) := by exact_mod_cast hv
    rwa [Nat.cast_sub (by omega), Nat.cast_one] at this
  have h0 : (0 : ℝ) ≤ (v : ℝ) / ((tv : ℝ) - 1) := by positivity
  have h1 : (v : ℝ) / ((tv : ℝ) - 1) ≤ 1 := by
    rw [div_le_one hn]; exact hv'
  constructor
  · have : -(radiansFn cone / 2) ≤ (0.5 - (v : ℝ) / ((tv : ℝ) - 1)) * radiansFn cone := by
      nlinarith
    linarith
  · have : (0.5 - (v : ℝ) / ((tv : ℝ) - 1)) * radiansFn cone ≤ radiansFn cone / 2 := by
      nlinarith
    linarith

/-- Strict monotonicity of the per-view camera offset in the view index,
    for positive focal-plane distance and a view cone in (0, 180). -/
theorem offsetVal_strict_anti (dist cone : ℝ) (tv : ℕ) (htv : 2 ≤ tv)
    (hdist : 0 < dist) (hcone : 0 < cone) (hcone2 : cone < 180)
    {v w : ℕ} (hvw : v < w) (hw : w ≤ tv - 1) :
    offsetVal dist w tv cone < offsetVal dist v tv cone := by
  obtain ⟨hrc, _⟩ := radiansFn_bounds cone hcone hcone2
  have htv' : (2 : ℝ) ≤ (tv : ℝ) := by exact_mod_cast htv
  have hn : (0 : ℝ) < (tv : ℝ) - 1 := by linarith
  have hvw' : (v : ℝ) < (w : ℝ) := by exact_mod_cast hvw
  have hdiv : (v : ℝ) / ((tv : ℝ) - 1) < (w : ℝ) / ((tv : ℝ) - 1) :=
    (div_lt_div_iff_of_pos_right hn).mpr hvw'
  have hang : (0.5 - (w : ℝ) / ((tv : ℝ) - 1)) * radiansFn cone
      < (0.5 - (v : ℝ) / ((tv : ℝ) - 1)) * radiansFn cone := by
    have : (0.5 - (w : ℝ) / ((tv : ℝ) - 1)) < (0.5 - (v : ℝ) / ((tv : ℝ) - 1)) := by linarith
    exact mul_lt_mul_of_pos_right this hrc
  have hbw := offsetAngleVal_bounds cone tv htv hcone hcone2 hw
  have hbv := offsetAngleVal_bounds cone tv htv hcone hcone2 (le_trans (Nat.le_of_lt hvw) hw)
  have htan : Real.tan ((0.5 - (w : ℝ) / ((tv : ℝ) - 1)) * radiansFn cone)
      < Real.tan ((0.5 - (v : ℝ) / ((tv : ℝ) - 1)) * radiansFn cone) :=
    Real.tan_lt_tan_of_lt_of_lt_pi_div_two hbw.1 hbv.2 hang
  unfold offsetVal
  exact mul_lt_mul_of_pos_left htan hdist

/-- Antisymmetry of the camera offset about the view midpoint. -/
theorem offsetVal_antisym (dist cone : ℝ) (tv : ℕ) (htv : 2 ≤ tv)
    {v : ℕ} (hv : v ≤ tv - 1) :
    offsetVal dist (tv - 1 - v) tv cone = - offsetVal dist v tv cone := by
  have htv' : (2 : ℝ) ≤ (tv : ℝ) := by exact_mod_cast htv
  have hn : (0 : ℝ) < (tv : ℝ) - 1 := by linarith
  have hcast : ((tv - 1 - v : ℕ) : ℝ) = ((tv : ℝ) - 1) - (v : ℝ) := by
    have h1 : v ≤ tv - 1 := hv
    have h2 : 1 ≤ tv := by omega
    rw [Nat.cast_sub h1, Nat.cast_sub h2, Nat.cast_one]
  unfold offsetVal
  rw [hcast]
  have hang : (0.5 - (((tv : ℝ) - 1) - (v : ℝ)) / ((tv : ℝ) - 1)) * radiansFn cone
      = -((0.5 - (v : ℝ) / ((tv : ℝ) - 1)) * radiansFn cone) := by
    have hne : (tv : ℝ) - 1 ≠ 0 := ne_of_gt hn
    field_simp
    ring
  rw [hang, Real.tan_neg, mul_neg]

/-- The offset of view 0 is dist * tan(radians(cone) / 2) and is positive. -/
theorem offsetVal_zero (dist cone : ℝ) (tv : ℕ) (_htv : 2 ≤ tv)
    (hdist : 0 < dist) (hcone : 0 < cone) (hcone2 : cone < 180) :
    offsetVal dist 0 tv cone = dist * Real.tan (radiansFn cone / 2)
    ∧ 0 < offsetVal dist 0 tv cone := by
  obtain ⟨hrc, hrc2⟩ := radiansFn_bounds cone hcone hcone2
  have heq : offsetVal dist 0 tv cone = dist * Real.tan (radiansFn cone / 2) := by
    unfold offsetVal
    have harg : (0.5 - ((0 : ℕ) : ℝ) / ((tv : ℝ) - 1)) * radiansFn cone
        = radiansFn cone / 2 := by
      push_cast
      ring
    rw [harg]
  refine ⟨heq, ?_⟩
  rw [heq]
  have htanpos : 0 < Real.tan (radiansFn cone / 2) :=
    Real.tan_pos_of_pos_of_lt_pi_div_two (by linarith) hrc2
  exact mul_pos hdist htanpos

/-- For an odd number of views, the middle view has offset exactly 0. -/
theorem offsetVal_middle (dist cone : ℝ) (tv : ℕ) (htv : 2 ≤ tv)
    (hodd : tv % 2 = 1) :
    offsetVal dist ((tv - 1) / 2) tv cone = 0 := by
  obtain ⟨k, hk⟩ : ∃ k, tv = 2 * k + 1 := ⟨tv / 2, by omega⟩
  have hk1 : 1 ≤ k := by omega
  have hmid : (tv - 1) / 2 = k := by omega
  rw [hmid]
  unfold offsetVal
  have hcast : (tv : ℝ) - 1 = 2 * (k : ℝ) := by
    have : (tv : ℝ) = 2 * (k : ℝ) + 1 := by exact_mod_cast congrArg (Nat.cast : ℕ → ℝ) hk
    linarith
  rw [hcast]
  have hkne : (k : ℝ) ≠ 0 := by
    have : (1 : ℝ) ≤ (k : ℝ) := by exact_mod_cast hk1
    linarith
  have h2k : (2 : ℝ) * (k : ℝ) ≠ 0 := by
    have : (1 : ℝ) ≤ (k : ℝ) := by exact_mod_cast hk1
    nlinarith
  have hdiv : (k : ℝ) / (2 * (k : ℝ)) = 1 / 2 := by
    rw [eq_comm, div_eq_div_iff (by norm_num) h2k]
    ring
  have : (0.5 - (k : ℝ) / (2 * (k : ℝ))) * radiansFn cone = 0 := by
    rw [hdiv]
    norm_num
  rw [this, Real.tan_zero, mul_zero]

/-- Claim C4.  For every total_views ≥ 2, positive focal-plane distance and
    view cone in (0, 180) degrees: the camera offset computed by
    setup_camera is (some of) offsetVal for every view; it is strictly
    decreasing in the view index over the views of the job; it is
    antisymmetric about the midpoint (offset(v) = -offset(total_views-1-v));
    view 0 has the maximal offset dist * tan(radians(view_cone)/2), which is
    positive; the last view has offset -offset(0), which is negative; and
    for an odd number of views the middle view has offset exactly 0. -/
theorem cameraOffset_profile (dist cone : ℝ) (tv : ℕ)
    (htv : 2 ≤ tv) (hdist : 0 < dist) (hcone : 0 < cone) (hcone2 : cone < 180) :
    (∀ v : ℕ, cameraOffset dist v tv cone = some (offsetVal dist v tv cone))
    ∧ (∀ v w : ℕ, v < w → w ≤ tv - 1 →
        offsetVal dist w tv cone < offsetVal dist v tv cone)
    ∧ (∀ v : ℕ, v ≤ tv - 1 →
        offsetVal dist (tv - 1 - v) tv cone = - offsetVal dist v tv cone)
    ∧ (offsetVal dist 0 tv cone = dist * Real.tan (radiansFn cone / 2)
        ∧ 0 < offsetVal dist 0 tv cone)
    ∧ (offsetVal dist (tv - 1) tv cone = - offsetVal dist 0 tv cone
        ∧ offsetVal dist (tv - 1) tv cone < 0)
    ∧ (tv % 2 = 1 → offsetVal dist ((tv - 1) / 2) tv cone = 0) := by
  have hzero := offsetVal_zero dist cone tv htv hdist hcone hcone2
  have hlast : offsetVal dist (tv - 1) tv cone = - offsetVal dist 0 tv cone := by
    have := @offsetVal_antisym dist cone tv htv 0 (Nat.zero_le _)
    simpa using this
  refine ⟨?_, ?_, ?_, hzero, ⟨hlast, ?_⟩, offsetVal_middle dist cone tv htv⟩
  · intro v
    have hne : tv ≠ 1 := by omega
    simp [cameraOffset, offsetAngle, offsetVal, hne]
  · intro v w hvw hw
    exact offsetVal_strict_anti dist cone tv htv hdist hcone hcone2 hvw hw
  · intro v hv
    exact offsetVal_antisym dist cone tv htv hv
  · rw [hlast]
    linarith [hzero.2]

/-- Witness for cameraOffset_profile at the spec scenario
    view_cone = 40, focal_plane_distance = 5, total_views = 5. -/
theorem cameraOffset_profile_witness :
    cameraOffset 5 1 5 40 = some (offsetVal 5 1 5 40)
    ∧ offsetVal 5 3 5 40 < offsetVal 5 1 5 40
    ∧ offsetVal 5 (5 - 1 - 1) 5 40 = - offsetVal 5 1 5 40
    ∧ offsetVal 5 0 5 40 = 5 * Real.tan (radiansFn 40 / 2)
    ∧ 0 < offsetVal 5 0 5 40
    ∧ offsetVal 5 4 5 40 < 0
    ∧ offsetVal 5 2 5 40 = 0 := by
  obtain ⟨h1, h2, h3, h4, h5, h6⟩ :=
    cameraOffset_profile 5 40 5 (by norm_num) (by norm_num) (by norm_num) (by norm_num)
  exact ⟨h1 1, h2 1 3 (by norm_num) (by norm_num), h3 1 (by norm_num),
    h4.1, h4.2, by simpa using h5.2, h6 (by norm_num)⟩

/-- A view file path is the common stem, then the "_v" view segment, then
    the extension. -/
theorem view_filepath_decomp (j : RenderJob) (v : ℤ) (frame : Option ℤ) :
    j.view_filepath (some v) frame
      = j.pathStem (frame.getD j.frame) ++ j.viewSegment v ++ j.file_extension := by
  cases hj : j.animation <;>
    simp [RenderJob.view_filepath, RenderJob.pathStem, RenderJob.viewSegment, pathJoin, hj,
      String.append_assoc]

/-- The quilt file path is the common stem followed by the extension. -/
theorem quilt_filepath_decomp (j : RenderJob) (frame : Option ℤ) :
    j.quilt_filepath frame = j.pathStem (frame.getD j.frame) ++ j.file_extension := by
  cases hj : j.animation <;>
    simp [RenderJob.quilt_filepath, RenderJob.pathStem, pathJoin, hj, String.append_assoc]

/-- A view file path never coincides with the quilt file path of the same
    job for the same frame: the view path is strictly longer by its view
    segment. -/
theorem view_filepath_ne_quilt_filepath (j : RenderJob) (v : ℤ) (frame : Option ℤ) :
    j.view_filepath (some v) frame ≠ j.quilt_filepath frame := by
  intro h
  rw [view_filepath_decomp, quilt_filepath_decomp] at h
  have hlen := congrArg String.length h
  rw [String.length_append, String.length_append, String.length_append,
    RenderJob.viewSegment, String.length_append] at hlen
  have h2 : ("_v" : String).length = 2 := rfl
  omega

/-- Claim C9.  The path functions are pure functions of the job parameters,
    frame and view (determinism is inherent: they are Lean functions of
    exactly these inputs).  Every view path decomposes as the common stem,
    the zero-padded "_v" view segment and the extension, and the quilt path
    for the same frame is the same stem followed directly by the same
    extension — so two view paths differing only in the view index differ
    only in the inserted "_v" segment before the extension. -/
theorem filepath_structure (j : RenderJob) (v f : ℤ) :
    j.view_filepath (some v) (some f)
      = j.pathStem f ++ j.viewSegment v ++ j.file_extension
    ∧ j.quilt_filepath (some f) = j.pathStem f ++ j.file_extension :=
  ⟨view_filepath_decomp j v (some f), quilt_filepath_decomp j (some f)⟩

/-- Removing a list of paths one by one removes exactly those paths. -/
theorem foldl_fsRemove_has (ps : List String) (fs : FileSys) (p : String) :
    ((ps.foldl fsRemoveFile fs).has p = true) ↔ (fs.has p = true ∧ p ∉ ps) := by
  induction ps generalizing fs with
  | nil => simp
  | cons q qs ih =>
    rw [List.foldl_cons, ih]
    by_cases hpq : p = q <;> simp [fsRemoveFile, hpq]

/-- Removing a list of paths leaves any other path untouched. -/
theorem foldl_fsRemove_has_of_notMem (ps : List String) (fs : FileSys) (p : String)
    (hp : p ∉ ps) : (ps.foldl fsRemoveFile fs).has p = fs.has p := by
  induction ps generalizing fs with
  | nil => rfl
  | cons q qs ih =>
    rw [List.mem_cons] at hp
    push_neg at hp
    rw [List.foldl_cons, ih _ hp.2]
    simp [fsRemoveFile, hp.1]

/-- Claim C10.  RenderJob.delete_files removes exactly the given frame's
    per-view files, plus the quilt file only when the user's output path
    has an empty basename and the job is not an animation; a quilt file at
    a user-specified output name (nonempty basename) is never removed; and
    the in-memory pixel-buffer list is cleared. -/
theorem delete_files_spec (fs : FileSys) (j : RenderJob) (frame : Option ℤ) :
    (∀ p : String,
      (((j.delete_files fs frame).1.has p = true) ↔
        (fs.has p = true
          ∧ ¬(∃ v : ℕ, v < j.total_views.toNat ∧ p = j.view_filepath (some (v : ℤ)) frame)
          ∧ ¬(pySplitBasename j.outputpath = "" ∧ j.animation = false
              ∧ p = j.quilt_filepath frame))))
    ∧ (j.delete_files fs frame).2._view_images_pixels = []
    ∧ (pySplitBasename j.outputpath ≠ "" →
        (j.delete_files fs frame).1.has (j.quilt_filepath frame)
          = fs.has (j.quilt_filepath frame)) := by
  have hmem : ∀ p : String,
      (p ∈ (List.range j.total_views.toNat).map
          (fun (v : ℕ) => j.view_filepath (some (v : ℤ)) frame)) ↔
        (∃ v : ℕ, v < j.total_views.toNat ∧ p = j.view_filepath (some (v : ℤ)) frame) := by
    intro p
    simp only [List.mem_map, List.mem_range]
    constructor
    · rintro ⟨v, hv, hp⟩
      exact ⟨v, hv, hp.symm⟩
    · rintro ⟨v, hv, hp⟩
      exact ⟨v, hv, hp.symm⟩
  have hquilt_notmem : j.quilt_filepath frame ∉
      (List.range j.total_views.toNat).map
        (fun (v : ℕ) => j.view_filepath (some (v : ℤ)) frame) := by
    rw [hmem]
    rintro ⟨v, -, hv⟩
    exact view_filepath_ne_quilt_filepath j (v : ℤ) frame hv.symm
  refine ⟨?_, ?_, ?_⟩
  · intro p
    show ((if pySplitBasename j.outputpath = "" ∧ j.animation = false then
        fsRemoveFile _ (j.quilt_filepath frame) else _).has p = true) ↔ _
    by_cases hcond : pySplitBasename j.outputpath = "" ∧ j.animation = false
    · rw [if_pos hcond]
      by_cases hpq : p = j.quilt_filepath frame
      · subst hpq
        simp [fsRemoveFile, hcond.1, hcond.2]
      · show ((if p = j.quilt_filepath frame then false else _) = true) ↔ _
        rw [if_neg hpq, foldl_fsRemove_has, hmem p]
        simp [hpq, hcond.1, hcond.2]
    · rw [if_neg hcond, foldl_fsRemove_has, hmem p]
      constructor
      · rintro ⟨h1, h2⟩
        exact ⟨h1, h2, fun hc => hcond ⟨hc.1, hc.2.1⟩⟩
      · rintro ⟨h1, h2, -⟩
        exact ⟨h1, h2⟩
  · rfl
  · intro hbn
    have hcond : ¬(pySplitBasename j.outputpath = "" ∧ j.animation = false) :=
      fun hc => hbn hc.1
    show ((if pySplitBasename j.outputpath = "" ∧ j.animation = false then
        fsRemoveFile _ (j.quilt_filepath frame) else _).has _) = _
    rw [if_neg hcond]
    exact foldl_fsRemove_has_of_notMem _ fs _ hquilt_notmem

/-- Witness for delete_files_spec: with a user-specified output basename
    the quilt file survives the deletion step and the pixel list is
    cleared. -/
theorem delete_files_spec_witness :
    (RenderJob.delete_files fullFS baseJob none).1.has (baseJob.quilt_filepath none)
      = fullFS.has (baseJob.quilt_filepath none)
    ∧ (RenderJob.delete_files fullFS baseJob none).2._view_images_pixels = [] := by
  have h := delete_files_spec fullFS baseJob none
  exact ⟨h.2.2 (by decide), h.2.1⟩

/-- Indexing into the concatenation of equally-long lists. -/
theorem flatten_getElem_uniform {α : Type} (K : ℕ) (L : List (List α)) (i j : ℕ)
    (hL : ∀ l ∈ L, l.length = K) (hj : j < K) :
    L.flatten[i * K + j]? = L[i]?.bind (fun l => l[j]?) := by
  induction L generalizing i with
  | nil => simp
  | cons hd tl ih =>
    have hx : hd.length = K := hL hd (List.mem_cons_self hd tl)
    cases i with
    | zero =>
      simp only [Nat.zero_mul, Nat.zero_add, List.flatten_cons]
      rw [List.getElem?_append]
      rw [if_pos (by omega)]
      simp
    | succ i' =>
      simp only [List.flatten_cons]
      have hidx : (i' + 1) * K + j = hd.length + (i' * K + j) := by rw [hx]; ring
      rw [hidx, List.getElem?_append, if_neg (by omega), Nat.add_sub_cancel_left]
      rw [ih i' (fun l hl => hL l (List.mem_cons_of_mem hd hl))]
      simp

/-- Length of the concatenation of equally-long lists. -/
theorem flatten_length_uniform {α : Type} (K : ℕ) (L : List (List α))
    (hL : ∀ l ∈ L, l.length = K) : L.flatten.length = L.length * K := by
  induction L with
  | nil => simp
  | cons hd tl ih =>
    simp only [List.flatten_cons, List.length_append, List.length_cons]
    rw [hL hd (List.mem_cons_self hd tl), ih (fun l hl => hL l (List.mem_cons_of_mem hd hl))]
    ring

/-- Row y of a reshaped view buffer is the corresponding contiguous slice. -/
theorem reshapeRows_getD (res_x res_y : ℕ) (buf : List ℚ) (y : ℕ) (hy : y < res_y) :
    (reshapeRows res_x res_y buf).getD y []
      = (buf.drop (y * (res_x * 4))).take (res_x * 4) := by
  simp [reshapeRows, List.getD_eq_getElem?_getD, List.getElem?_map, List.getElem?_range hy]

/-- Length of a row of a correctly-sized reshaped view buffer. -/
theorem reshapeRows_getD_length (res_x res_y : ℕ) (buf : List ℚ) (y : ℕ)
    (hy : y < res_y) (hbuf : buf.length = res_y * (res_x * 4)) :
    ((reshapeRows res_x res_y buf).getD y []).length = res_x * 4 := by
  rw [reshapeRows_getD res_x res_y buf y hy, List.length_take, List.length_drop, hbuf]
  have h1 : res_y * (res_x * 4) - y * (res_x * 4) = (res_y - y) * (res_x * 4) :=
    (Nat.sub_mul res_y y _).symm
  rw [h1]
  have h2 : 1 ≤ res_y - y := by omega
  have h3 : res_x * 4 ≤ (res_y - y) * (res_x * 4) := by
    calc res_x * 4 = 1 * (res_x * 4) := by ring
      _ ≤ (res_y - y) * (res_x * 4) := Nat.mul_le_mul_right _ h2
  exact min_eq_left h3

/-- Row y of an hstacked row of tiles. -/
theorem hstackRows_getElem (res_y : ℕ) (tiles : List (List (List ℚ))) (y : ℕ)
    (hy : y < res_y) :
    (hstackRows res_y tiles)[y]? = some ((tiles.map (fun t => t.getD y [])).flatten) := by
  simp [hstackRows, List.getElem?_map, List.getElem?_range hy]

/-- Claim C5.  For a complete list of rows * columns equally-sized view
    buffers of res_x * res_y pixels with 4 channels, assemble_quilt
    succeeds, the assembled buffer has rows * res_y rows of
    columns * res_x pixels of 4 channels, and the tiling is row-major:
    quilt value at (row tile r, column tile c, pixel (y, x), channel ch)
    equals the value of the buffer at list position r * columns + c at
    pixel (y, x), channel ch.  In particular the buffer at list position 0
    occupies the initial (top-left) tile. -/
theorem assemble_quilt_spec (rows columns res_x res_y : ℕ) (bufs : List (List ℚ))
    (hlen : bufs.length = rows * columns)
    (hsize : ∀ b ∈ bufs, b.length = res_y * (res_x * 4))
    (r c y x ch : ℕ) (hr : r < rows) (hc : c < columns) (hy : y < res_y)
    (hx : x < res_x) (hch : ch < 4) :
    (assemble_quilt rows columns res_x res_y bufs).isSome = true
    ∧ ((assemble_quilt rows columns res_x res_y bufs).getD []).length
        = (rows * res_y) * (columns * (res_x * 4))
    ∧ ((assemble_quilt rows columns res_x res_y bufs).getD
        [])[((r * res_y + y) * (columns * res_x) + (c * res_x + x)) * 4 + ch]?
        = (bufs.getD (r * columns + c) [])[(y * res_x + x) * 4 + ch]? := by
  -- arithmetic bounds
  have hw4 : x * 4 + ch < res_x * 4 := by
    have h1 : (x + 1) * 4 ≤ res_x * 4 := Nat.mul_le_mul_right 4 hx
    omega
  have hjK : c * (res_x * 4) + (x * 4 + ch) < columns * (res_x * 4) := by
    have h1 : (c + 1) * (res_x * 4) ≤ columns * (res_x * 4) := Nat.mul_le_mul_right _ hc
    have h2 : (c + 1) * (res_x * 4) = c * (res_x * 4) + res_x * 4 := by ring
    omega
  -- the success guard of assemble_quilt holds
  have hbufat : ∀ r' < rows, ∀ c' < columns,
      (bufs.getD (r' * columns + c') []).length = res_y * (res_x * 4) := by
    intro r' hr' c' hc'
    have h1 : (r' + 1) * columns ≤ rows * columns := Nat.mul_le_mul_right _ hr'
    have h2 : (r' + 1) * columns = r' * columns + columns := by ring
    have hidx : r' * columns + c' < bufs.length := by rw [hlen]; omega
    rw [List.getD_eq_getElem?_getD, List.getElem?_eq_getElem hidx, Option.getD_some]
    exact hsize _ (List.getElem_mem hidx)
  have hguard : rows * columns ≤ bufs.length
      ∧ ∀ r' < rows, ∀ c' < columns,
        (bufs.getD (r' * columns + c') []).length = res_y * (res_x * 4) :=
    ⟨le_of_eq hlen.symm, hbufat⟩
  have hassemble : assemble_quilt rows columns res_x res_y bufs
      = some (((List.range rows).map (fun r' =>
          hstackRows res_y ((List.range columns).map (fun c' =>
            reshapeRows res_x res_y (bufs.getD (r' * columns + c') []))))).flatten.flatten) := by
    unfold assemble_quilt
    rw [if_pos hguard]
  -- uniform lengths of the flattened structure
  have hblocklen : ∀ b ∈ (List.range rows).map (fun r' =>
      hstackRows res_y ((List.range columns).map (fun c' =>
        reshapeRows res_x res_y (bufs.getD (r' * columns + c') [])))), b.length = res_y := by
    intro b hb
    obtain ⟨r', hr', rfl⟩ := List.mem_map.mp hb
    simp [hstackRows]
  have hrowlen : ∀ row ∈ ((List.range rows).map (fun r' =>
      hstackRows res_y ((List.range columns).map (fun c' =>
        reshapeRows res_x res_y (bufs.getD (r' * columns + c') []))))).flatten,
      row.length = columns * (res_x * 4) := by
    intro row hrow
    obtain ⟨b, hb, hrowb⟩ := List.mem_flatten.mp hrow
    obtain ⟨r', hr'', rfl⟩ := List.mem_map.mp hb
    rw [List.mem_range] at hr''
    unfold hstackRows at hrowb
    obtain ⟨y', hy', rfl⟩ := List.mem_map.mp hrowb
    rw [List.mem_range] at hy'
    rw [flatten_length_uniform (res_x * 4)]
    · simp
    · intro t ht
      rw [List.map_map] at ht
      obtain ⟨c', hc', rfl⟩ := List.mem_map.mp ht
      rw [List.mem_range] at hc'
      exact reshapeRows_getD_length res_x res_y _ y' hy' (hbufat r' hr'' c' hc')
  refine ⟨by rw [hassemble]; rfl, ?_, ?_⟩
  · rw [hassemble, Option.getD_some]
    rw [flatten_length_uniform (columns * (res_x * 4)) _ hrowlen]
    rw [flatten_length_uniform res_y _ hblocklen]
    simp only [List.length_map, List.length_range]
  · rw [hassemble, Option.getD_some]
    have hI : ((r * res_y + y) * (columns * res_x) + (c * res_x + x)) * 4 + ch
        = (r * res_y + y) * (columns * (res_x * 4)) + (c * (res_x * 4) + (x * 4 + ch)) := by
      ring
    rw [hI]
    rw [flatten_getElem_uniform (columns * (res_x * 4)) _ (r * res_y + y)
      (c * (res_x * 4) + (x * 4 + ch)) hrowlen hjK]
    rw [flatten_getElem_uniform res_y _ r y hblocklen hy]
    rw [List.getElem?_map, List.getElem?_range hr]
    simp only [Option.map_some', Option.some_bind]
    rw [hstackRows_getElem res_y _ y hy]
    simp only [Option.some_bind]
    rw [List.map_map]
    rw [flatten_getElem_uniform (res_x * 4) _ c (x * 4 + ch) ?uniform hw4]
    case uniform =>
      intro t ht
      obtain ⟨c', hc', rfl⟩ := List.mem_map.mp ht
      rw [List.mem_range] at hc'
      exact reshapeRows_getD_length res_x res_y _ y hy (hbufat r hr c' hc')
    rw [List.getElem?_map, List.getElem?_range hc]
    simp only [Option.map_some', Option.some_bind, Function.comp_apply]
    rw [reshapeRows_getD res_x res_y _ y hy]
    rw [List.getElem?_take, if_pos hw4, List.getElem?_drop]
    congr 1
    ring

/-- Witness for assemble_quilt_spec on a concrete 1 x 2 quilt of 1 x 1
    views: the second buffer lands at the second tile. -/
theorem assemble_quilt_spec_witness :
    (assemble_quilt 1 2 1 1 [[(1 : ℚ), 2, 3, 4], [5, 6, 7, 8]]).isSome = true
    ∧ ((assemble_quilt 1 2 1 1 [[(1 : ℚ), 2, 3, 4], [5, 6, 7, 8]]).getD []).length
        = (1 * 1) * (2 * (1 * 4))
    ∧ ((assemble_quilt 1 2 1 1 [[(1 : ℚ), 2, 3, 4], [5, 6, 7, 8]]).getD
        [])[((0 * 1 + 0) * (2 * 1) + (1 * 1 + 0)) * 4 + 2]?
        = ([[(1 : ℚ), 2, 3, 4], [5, 6, 7, 8]].getD (0 * 2 + 1) [])[(0 * 1 + 0) * 4 + 2]? :=
  assemble_quilt_spec 1 2 1 1 [[(1 : ℚ), 2, 3, 4], [5, 6, 7, 8]] (by decide)
    (by decide) 0 1 0 0 2 (by decide) (by decide) (by decide) (by decide) (by decide)

/-- Claim C6.  If any captured view buffer of a complete frame has a length
    other than res_y * res_x * 4, quilt assembly fails (numpy reshape
    raises; there is no resampling or cropping), and the COMPLETE_RENDER
    step of the modal operator raises instead of producing a successor
    state — the job does not advance past the failed frame completion. -/
theorem assemble_quilt_size_mismatch (op : OpState) (fs : FileSys)
    (hstate : op.job._state = JState.COMPLETE_RENDER)
    (hcancel : op.render_cancel = false)
    (hview : op.job.view = op.job.total_views - 1)
    (hlen : op.job._view_images_pixels.length = op.job.rows.toNat * op.job.columns.toNat)
    (hcols : 0 < op.job.columns.toNat)
    (b : List ℚ) (hb : b ∈ op.job._view_images_pixels)
    (hbad : b.length ≠ op.resolution_y * (op.resolution_x * 4)) :
    assemble_quilt op.job.rows.toNat op.job.columns.toNat op.resolution_x op.resolution_y
      op.job._view_images_pixels = none
    ∧ opTimer fs op = Except.error ("AssemblyError: cannot reshape view buffer") := by
  have hnone : assemble_quilt op.job.rows.toNat op.job.columns.toNat op.resolution_x
      op.resolution_y op.job._view_images_pixels = none := by
    unfold assemble_quilt
    rw [if_neg]
    rintro ⟨-, hall⟩
    obtain ⟨i, hilt, hieq⟩ := List.mem_iff_getElem.mp hb
    have hidx : i < op.job.rows.toNat * op.job.columns.toNat := hlen ▸ hilt
    have hdivlt : i / op.job.columns.toNat < op.job.rows.toNat :=
      (Nat.div_lt_iff_lt_mul hcols).mpr hidx
    have hmodlt : i % op.job.columns.toNat < op.job.columns.toNat := Nat.mod_lt _ hcols
    have hrecompose : (i / op.job.columns.toNat) * op.job.columns.toNat
        + i % op.job.columns.toNat = i := by
      calc (i / op.job.columns.toNat) * op.job.columns.toNat + i % op.job.columns.toNat
          = op.job.columns.toNat * (i / op.job.columns.toNat) + i % op.job.columns.toNat := by
            ring
        _ = i := Nat.div_add_mod i op.job.columns.toNat
    have := hall _ hdivlt _ hmodlt
    rw [hrecompose, List.getD_eq_getElem?_getD, List.getElem?_eq_getElem hilt,
      Option.getD_some, hieq] at this
    exact hbad this
  have h1 : ¬(op.render_cancel = false ∧ op.job._state = JState.INVOKE_RENDER) := by
    rw [hstate]
    rintro ⟨-, h⟩
    exact absurd h (by simp)
  refine ⟨hnone, ?_⟩
  unfold opTimer
  rw [if_neg h1, if_pos ⟨hcancel, hstate⟩, if_pos hview, hnone]

/-- Witness for assemble_quilt_size_mismatch: the concrete operator state
    c6Op holds a 2-element second buffer where 4 values are required. -/
theorem assemble_quilt_size_mismatch_witness :
    assemble_quilt c6Op.job.rows.toNat c6Op.job.columns.toNat c6Op.resolution_x
      c6Op.resolution_y c6Op.job._view_images_pixels = none
    ∧ opTimer emptyFS c6Op = Except.error ("AssemblyError: cannot reshape view buffer") :=
  assemble_quilt_size_mismatch c6Op emptyFS rfl rfl (by decide) (by decide) (by decide)
    [1, 2] (by simp [c6Op, baseJob]) (by decide)

/-- Reduction of jobSetKey on each key of the record schema (one
    equation per arm of the from_dict dispatch; all hold by computation). -/
theorem jobSetKey_init (scenes : String → SceneData) (j : RenderJob) (b : Bool) :
    jobSetKey scenes j ("init", JValue.jbool b) = { j with init := b } := rfl

theorem jobSetKey_add_suffix (scenes : String → SceneData) (j : RenderJob) (b : Bool) :
    jobSetKey scenes j ("add_suffix", JValue.jbool b) = { j with add_suffix := b } := rfl

theorem jobSetKey_animation (scenes : String → SceneData) (j : RenderJob) (b : Bool) :
    jobSetKey scenes j ("animation", JValue.jbool b) = { j with animation := b } := rfl

theorem jobSetKey_use_multiview (scenes : String → SceneData) (j : RenderJob) (b : Bool) :
    jobSetKey scenes j ("use_multiview", JValue.jbool b) = { j with use_multiview := b } := rfl

theorem jobSetKey_frame (scenes : String → SceneData) (j : RenderJob) (n : ℤ) :
    jobSetKey scenes j ("frame", JValue.jint n) = { j with frame := n } := rfl

theorem jobSetKey_subframe (scenes : String → SceneData) (j : RenderJob) (q : ℚ) :
    jobSetKey scenes j ("subframe", JValue.jnum q) = { j with subframe := q } := rfl

theorem jobSetKey_view (scenes : String → SceneData) (j : RenderJob) (n : ℤ) :
    jobSetKey scenes j ("view", JValue.jint n) = { j with view := n } := rfl

theorem jobSetKey_seed (scenes : String → SceneData) (j : RenderJob) (n : ℤ) :
    jobSetKey scenes j ("seed", JValue.jint n) = { j with seed := some n } := rfl

theorem jobSetKey_view_width (scenes : String → SceneData) (j : RenderJob) (n : ℤ) :
    jobSetKey scenes j ("view_width", JValue.jint n) = { j with view_width := n } := rfl

theorem jobSetKey_view_height (scenes : String → SceneData) (j : RenderJob) (n : ℤ) :
    jobSetKey scenes j ("view_height", JValue.jint n) = { j with view_height := n } := rfl

theorem jobSetKey_rows (scenes : String → SceneData) (j : RenderJob) (n : ℤ) :
    jobSetKey scenes j ("rows", JValue.jint n) = { j with rows := n } := rfl

theorem jobSetKey_columns (scenes : String → SceneData) (j : RenderJob) (n : ℤ) :
    jobSetKey scenes j ("columns", JValue.jint n) = { j with columns := n } := rfl

theorem jobSetKey_total_views (scenes : String → SceneData) (j : RenderJob) (n : ℤ) :
    jobSetKey scenes j ("total_views", JValue.jint n) = { j with total_views := n } := rfl

theorem jobSetKey_quilt_aspect (scenes : String → SceneData) (j : RenderJob) (q : ℚ) :
    jobSetKey scenes j ("quilt_aspect", JValue.jnum q) = { j with quilt_aspect := q } := rfl

theorem jobSetKey_view_cone (scenes : String → SceneData) (j : RenderJob) (q : ℚ) :
    jobSetKey scenes j ("view_cone", JValue.jnum q) = { j with view_cone := q } := rfl

theorem jobSetKey_lockfile_path (scenes : String → SceneData) (j : RenderJob) (s : String) :
    jobSetKey scenes j ("lockfile_path", JValue.jstr s) = { j with lockfile_path := s } := rfl

theorem jobSetKey_outputpath (scenes : String → SceneData) (j : RenderJob) (s : String) :
    jobSetKey scenes j ("outputpath", JValue.jstr s) = { j with outputpath := s } := rfl

theorem jobSetKey_file_use_temp (scenes : String → SceneData) (j : RenderJob) (b : Bool) :
    jobSetKey scenes j ("file_use_temp", JValue.jbool b) = { j with file_use_temp := b } := rfl

theorem jobSetKey_file_temp_name (scenes : String → SceneData) (j : RenderJob) (s : String) :
    jobSetKey scenes j ("file_temp_name", JValue.jstr s) = { j with file_temp_name := s } := rfl

theorem jobSetKey_file_dirname (scenes : String → SceneData) (j : RenderJob) (s : String) :
    jobSetKey scenes j ("file_dirname", JValue.jstr s) = { j with file_dirname := s } := rfl

theorem jobSetKey_file_basename (scenes : String → SceneData) (j : RenderJob) (s : String) :
    jobSetKey scenes j ("file_basename", JValue.jstr s) = { j with file_basename := s } := rfl

theorem jobSetKey_file_extension (scenes : String → SceneData) (j : RenderJob) (s : String) :
    jobSetKey scenes j ("file_extension", JValue.jstr s) = { j with file_extension := s } := rfl

theorem jobSetKey_file_quilt_suffix (scenes : String → SceneData) (j : RenderJob) (s : String) :
    jobSetKey scenes j ("file_quilt_suffix", JValue.jstr s) = { j with file_quilt_suffix := some s } := rfl

theorem jobSetKey_file_force_keep (scenes : String → SceneData) (j : RenderJob) (b : Bool) :
    jobSetKey scenes j ("file_force_keep", JValue.jbool b) = { j with file_force_keep := b } := rfl

theorem jobSetKey_scene (scenes : String → SceneData) (j : RenderJob) (s : String) :
    jobSetKey scenes j ("scene", JValue.jstr s) = { j with scene := scenes s } := rfl

theorem jobSetKey_seed_null (scenes : String → SceneData) (j : RenderJob) :
    jobSetKey scenes j ("seed", JValue.null) = j := rfl

theorem jobSetKey_file_quilt_suffix_null (scenes : String → SceneData) (j : RenderJob) :
    jobSetKey scenes j ("file_quilt_suffix", JValue.null) = j := rfl

/-- Claim C3.  Resuming from a checkpoint record restores the job on every
    persistent field: applying the serialized record of a job j to the
    RenderJob object t created fresh by __init__ (whose optional attributes
    seed and file_quilt_suffix start as None) reproduces all persistent
    fields of j, provided bpy.data.scenes maps the recorded scene name back
    to the job's scene.  Fields whose recorded value is null (a None
    attribute) are skipped by from_dict and keep t's fresh None value,
    which equals the serialized None. -/
theorem checkpoint_resume_roundtrip (scenes : String → SceneData) (j t : RenderJob)
    (hsc : scenes j.scene.name = j.scene)
    (hseed : t.seed = none)
    (hsuffix : t.file_quilt_suffix = none) :
    persistentFields (resume scenes t (checkpoint j)) = persistentFields j := by
  cases hs : j.seed <;> cases hq : j.file_quilt_suffix <;>
    simp only [resume, checkpoint, jobFromDict, jobToDict, jOptInt, jOptStr, hs, hq,
      List.foldl_cons, List.foldl_nil,
      jobSetKey_init, jobSetKey_add_suffix, jobSetKey_scene, jobSetKey_animation,
      jobSetKey_use_multiview, jobSetKey_frame, jobSetKey_subframe, jobSetKey_view,
      jobSetKey_seed, jobSetKey_seed_null, jobSetKey_view_width, jobSetKey_view_height,
      jobSetKey_rows, jobSetKey_columns, jobSetKey_total_views, jobSetKey_quilt_aspect,
      jobSetKey_view_cone, jobSetKey_lockfile_path, jobSetKey_outputpath,
      jobSetKey_file_use_temp, jobSetKey_file_temp_name, jobSetKey_file_dirname,
      jobSetKey_file_basename, jobSetKey_file_extension, jobSetKey_file_quilt_suffix,
      jobSetKey_file_quilt_suffix_null, jobSetKey_file_force_keep] <;>
    simp [persistentFields, hsc, hseed, hsuffix] <;>
    exact ⟨hs.symm, hq.symm⟩

/-- Witness for checkpoint_resume_roundtrip on the concrete job baseJob. -/
theorem checkpoint_resume_roundtrip_witness :
    persistentFields (resume (fun _ => baseJob.scene)
      { baseJob with frame := 9 } (checkpoint baseJob)) = persistentFields baseJob :=
  checkpoint_resume_roundtrip (fun _ => baseJob.scene) baseJob
    { baseJob with frame := 9 } rfl rfl rfl

/-- Claim C7 (behavior at the failing input).  Resuming c7Op (view counter
    2) over a file system missing the view-1 file: after the first render
    starts (timer) and the renderer init callback runs, the job is in
    CANCEL_RENDER with the force-keep flag set, exactly one view (view 0,
    the one before the missing file) was loaded, and the resume-error sign
    and message were recorded — but on the RenderJob object.  On the next
    modal event the operator reports its own (unchanged) class attributes:
    the user receives the generic INFO "Quilt rendering was cancelled.",
    not the distinct resume error. -/
theorem resume_missing_view_file_behavior :
    ((runTrace c7FS c7Op ModalResult.pass_through [REvent.timer, REvent.rinit]).toOption.map
        (fun res => (res.2.1.job._state, res.2.1.job.file_force_keep,
          res.2.1.job.cancel_sign, res.2.1.job.cancel_message,
          res.2.1.job._view_images_pixels.length))
      = some (JState.CANCEL_RENDER, true, some ("ERROR"),
          some ("Render job can not be continued. Missing view file(s) of the previously failed render job."),
          1))
    ∧ ((runTrace c7FS c7Op ModalResult.pass_through
          [REvent.timer, REvent.rinit, REvent.timer]).toOption.map
        (fun res => res.2.2)
      = some (ModalResult.cancelled ("INFO") ("Quilt rendering was cancelled."))) := by
  constructor <;> rfl

/-- Claim C8 (behavior at the failing input).  For the animation job c8Op
    with the keep-view-files setting, after the first frame's two views are
    captured and the frame advances (trace c8Trace), the job sits at
    view 0 of frame 2 in INVOKE_RENDER — but the pixel-buffer list still
    holds the 2 buffers of frame 1: assemble_quilt never clears the list
    and delete_files (the only clearing step on the frame-advance path) is
    skipped when view files are kept, so the claimed invariant
    "buffer-list length equals the view index mid-frame / the frame only
    advances once the list is consumed" is violated by the code. -/
theorem frame_advance_keeps_stale_buffers :
    (runTrace emptyFS c8Op ModalResult.pass_through c8Trace).toOption.map
        (fun res => (res.2.1.job.view, res.2.1.job.frame, res.2.1.job._state,
          res.2.1.job._view_images_pixels.length))
      = some (0, 2, JState.INVOKE_RENDER, 2) := by
  rfl

end AliceLG
